import Mathlib

/-!
Verification of the goal-recorder script (Random Projects/goal.py).

The script is a linear flow: print a header, read one line from standard
input, write it to the file my_goal.txt inside a with-block (write mode,
which truncates on open), print a progress notice and a separator, reopen
the file for reading inside a second with-block, read the whole content,
and print a confirmation line followed by a trailing separator.

The embedding below is a pure state-passing interpreter.  The environment
records how the outside world answers each I/O request: the line available
on standard input (none models a closed stream, i.e. EOF), whether opening
the file for writing succeeds, whether the write call itself succeeds,
whether opening for reading succeeds, whether the read call succeeds, and
an optional external change to the file between the write block and the
read block (modelling another process touching the file).  The process
state tracks the content of my_goal.txt (none means the file does not
exist), the number of currently open file handles, and the chunks emitted
to standard output, in order.  Fallible steps return an Except value; an
error aborts the remainder of the run, exactly as an uncaught Python
exception would.
-/

namespace GoalRecorder

/-- Content of the single file my_goal.txt; none means the file does not exist. -/
abbrev FileContent := Option String

/-- How the outside world answers each I/O request of one run. -/
structure Env where
  stdin : Option String
  canOpenWrite : Bool
  writeFails : Bool
  canOpenRead : Bool
  readFails : Bool
  interference : Option FileContent
deriving DecidableEq

/-- Observable process state: file content, open handle count, stdout chunks. -/
structure ProcState where
  file : FileContent
  openHandles : Nat
  stdout : List String
deriving DecidableEq

/-- Python print: emits its argument followed by a newline. -/
def pyPrint (st : ProcState) (s : String) : ProcState :=
  { st with stdout := st.stdout ++ [s ++ "\n"] }

/-- The newline stripping performed by the line-read primitive: the Python
input builtin returns the line read from standard input with its trailing
newline character removed. -/
def stripTrailingNewline (s : String) : String :=
  match s.data.getLast? with
  | some c => if c = '\n' then String.mk s.data.dropLast else s
  | none => s

/-- Python input(prompt): emits the prompt with no trailing newline, then
reads one line from standard input and strips its trailing newline; raises
EOFError (modelled as Except.error) when the stream is closed. -/
def pyInput (env : Env) (st : ProcState) (prompt : String) :
    ProcState × Except Unit String :=
  let st1 := { st with stdout := st.stdout ++ [prompt] }
  match env.stdin with
  | none => (st1, Except.error ())
  | some raw => (st1, Except.ok (stripTrailingNewline raw))

/-- open(filename, "w"): truncate-create mode.  On success the file content
becomes empty and a handle is acquired; on failure (directory not writable,
no permission) nothing is touched. -/
def openWrite (env : Env) (st : ProcState) : ProcState × Except Unit Unit :=
  if env.canOpenWrite then
    ({ st with file := some "", openHandles := st.openHandles + 1 }, Except.ok ())
  else (st, Except.error ())

/-- file.write(s): appends s at the handle position, which after a
truncate-create open is the end of the (empty) file. -/
def fileWrite (env : Env) (st : ProcState) (s : String) :
    ProcState × Except Unit Unit :=
  if env.writeFails then (st, Except.error ())
  else ({ st with file := some (st.file.getD "" ++ s) }, Except.ok ())

/-- open(filename, "r"): fails when the file is missing or unreadable,
otherwise acquires a handle. -/
def openRead (env : Env) (st : ProcState) : ProcState × Except Unit Unit :=
  match st.file with
  | none => (st, Except.error ())
  | some _ =>
    if env.canOpenRead then
      ({ st with openHandles := st.openHandles + 1 }, Except.ok ())
    else (st, Except.error ())

/-- file.read(): returns the whole file content as one string. -/
def fileRead (env : Env) (st : ProcState) : ProcState × Except Unit String :=
  if env.readFails then (st, Except.error ())
  else (st, Except.ok (st.file.getD ""))

/-- Releasing one file handle. -/
def closeFile (st : ProcState) : ProcState :=
  { st with openHandles := st.openHandles - 1 }

/-- The with-statement discipline: run the opener; when it succeeds, run the
body and close the handle afterwards on both exit paths, the normal one and
the error one.  When the opener fails no handle was acquired and nothing is
closed. -/
def withOpen {α : Type} (opener : ProcState → ProcState × Except Unit Unit)
    (body : ProcState → ProcState × Except Unit α)
    (st : ProcState) : ProcState × Except Unit α :=
  match opener st with
  | (st1, Except.error e) => (st1, Except.error e)
  | (st1, Except.ok _) =>
    let r := body st1
    (closeFile r.1, r.2)

/-- External interference with the file between the write block and the read
block: none leaves the file alone, some c replaces the content by c (with
c = none modelling deletion by another process). -/
def interfere (env : Env) (st : ProcState) : ProcState :=
  match env.interference with
  | none => st
  | some c => { st with file := c }

/-- Python string repetition, as in the separator expression. -/
def strMul (s : String) (n : Nat) : String :=
  String.join (List.replicate n s)

/-- The whole script, line by line.  Returns the final process state together
with Except.ok saved_content on a complete run, or Except.error () when an
uncaught error aborted the run at some earlier point. -/
def run (env : Env) (fileInit : FileContent) : ProcState × Except Unit String :=
  let st0 : ProcState := { file := fileInit, openHandles := 0, stdout := [] }
  let st1 := pyPrint st0 "--- 2026 CAREER LOCKER ---"
  match pyInput env st1 "What is your ultimate goal for 2026? > " with
  | (st2, Except.error e) => (st2, Except.error e)
  | (st2, Except.ok my_goal) =>
    match withOpen (openWrite env) (fun st => fileWrite env st my_goal) st2 with
    | (st3, Except.error e) => (st3, Except.error e)
    | (st3, Except.ok _) =>
      let st4 := pyPrint st3 "\n...Saving to disk..."
      let st5 := pyPrint st4 (strMul "-" 30)
      let st6 := interfere env st5
      withOpen (openRead env)
        (fun st =>
          match fileRead env st with
          | (st7, Except.error e) => (st7, Except.error e)
          | (st7, Except.ok saved_content) =>
            let st8 := pyPrint st7 ("✅ CONFIRMED. Saved Goal: " ++ saved_content)
            let st9 := pyPrint st8 (strMul "-" 30)
            (st9, Except.ok saved_content))
        st6

/-- The benign environment: a line is available on standard input, every
file operation succeeds, and no other process touches the file. -/
def benign (raw : String) : Env :=
  { stdin := some raw, canOpenWrite := true, writeFails := false,
    canOpenRead := true, readFails := false, interference := none }

/-- C1: round-trip identity.  For every string supplied as the input line
(the empty string and Unicode strings included), a run in which every file
operation succeeds reads back from my_goal.txt exactly the string that was
written: saved_content and the final file content both equal the captured
input. -/
theorem roundtrip_identity (raw : String) (fileInit : FileContent) :
    (run (benign raw) fileInit).2 = Except.ok (stripTrailingNewline raw) ∧
    (run (benign raw) fileInit).1.file = some (stripTrailingNewline raw) :=
  ⟨rfl, rfl⟩

/-- C7: on empty input the file my_goal.txt ends up containing the empty
string (0 characters, hence 0 bytes), and the confirmation chunk printed is
exactly the text CONFIRMED. Saved Goal: with nothing after the colon-space
(the final newline being the one the print call itself appends). -/
theorem empty_input_empty_file :
    (run (benign "") none).1.file = some "" ∧
    ((run (benign "") none).1.file.getD "?").length = 0 ∧
    (run (benign "") none).1.stdout.getD 4 "" = "✅ CONFIRMED. Saved Goal: \n" ∧
    (run (benign "") none).2 = Except.ok "" :=
  ⟨rfl, rfl, rfl, rfl⟩

/-- C3: the file is overwritten, not appended to.  Whatever the prior file
content P, a successful run leaves my_goal.txt containing exactly the new
input and nothing of P; equivalently, two consecutive runs with inputs raw1
then raw2 leave the file containing the second input only. -/
theorem overwrite_not_append (raw1 raw2 P : String) :
    (run (benign raw1) (some P)).1.file = some (stripTrailingNewline raw1) ∧
    (run (benign raw2) ((run (benign raw1) (some P)).1.file)).1.file =
      some (stripTrailingNewline raw2) :=
  ⟨rfl, rfl⟩

/-- C4: the persisted content is exactly the captured input string, verbatim,
with no header, metadata or extra newline added, as soon as the open and the
write succeed and no other process interferes; the outcome of the later read
phase (any values of canOpenRead and readFails) never changes the file. -/
theorem persisted_content_verbatim (raw : String) (fileInit : FileContent)
    (cr rf : Bool) :
    (run { stdin := some raw, canOpenWrite := true, writeFails := false,
           canOpenRead := cr, readFails := rf, interference := none }
        fileInit).1.file = some (stripTrailingNewline raw) := by
  cases cr <;> cases rf <;> rfl

/-- C8: every file handle acquired during a run is released by the end of the
run, on every exit path: for every environment (all failure combinations and
all interference values included) the final open handle count is zero. -/
theorem handles_released (env : Env) (fileInit : FileContent) :
    (run env fileInit).1.openHandles = 0 := by
  obtain ⟨stdin, cw, wf, cr, rf, intf⟩ := env
  cases stdin <;> cases cw <;> cases wf <;> cases cr <;> cases rf <;>
    rcases intf with _ | _ | c <;> rfl

/-- C9: the line-read primitive strips the trailing newline before the
program sees the value, so for an input line consisting of a body s followed
by one newline character, the captured goal string is s and the persisted
file content is s, without the newline. -/
theorem input_newline_stripped (s : String) (fileInit : FileContent) :
    stripTrailingNewline (s ++ "\n") = s ∧
    (run (benign (s ++ "\n")) fileInit).1.file = some s := by
  have h : stripTrailingNewline (s ++ "\n") = s := by
    have hd : (s ++ "\n").data = s.data ++ ['\n'] := rfl
    simp [stripTrailingNewline, hd, List.getLast?_concat, List.dropLast_concat]
  refine ⟨h, ?_⟩
  have hr : (run (benign (s ++ "\n")) fileInit).1.file =
      some (stripTrailingNewline (s ++ "\n")) := rfl
  rw [hr, h]

/-- C10: the program is deterministic in its input and filesystem behavior:
two runs given the same environment (the same input line and the same
filesystem responses) and the same initial file content produce identical
standard output and leave identical file content in my_goal.txt. -/
theorem run_deterministic (env1 env2 : Env) (f1 f2 : FileContent)
    (he : env1 = env2) (hf : f1 = f2) :
    (run env1 f1).1.stdout = (run env2 f2).1.stdout ∧
    (run env1 f1).1.file = (run env2 f2).1.file := by
  subst he; subst hf; exact ⟨rfl, rfl⟩

/-- Joining six output chunks is the same as appending them in order. -/
theorem join_six (a b c d e f : String) :
    String.join [a, b, c, d, e, f] = a ++ b ++ c ++ d ++ e ++ f := by
  apply String.ext
  simp [List.append_assoc]

/-- C5: on a successful run the whole standard output stream is exactly, in
order: the header line, the prompt (terminated by the newline that starts
the next print), the progress notice line, a separator line of 30 hyphens,
the confirmation line carrying the read-back content, and a trailing
separator line of 30 hyphens. -/
theorem stdout_on_success (env : Env) (fileInit : FileContent) (s : String)
    (h : (run env fileInit).2 = Except.ok s) :
    String.join (run env fileInit).1.stdout =
      "--- 2026 CAREER LOCKER ---\n" ++
      "What is your ultimate goal for 2026? > " ++
      ("\n" ++ "...Saving to disk...\n") ++
      (strMul "-" 30 ++ "\n") ++
      ("✅ CONFIRMED. Saved Goal: " ++ s ++ "\n") ++
      (strMul "-" 30 ++ "\n") := by
  obtain ⟨stdin, cw, wf, cr, rf, intf⟩ := env
  cases stdin <;> cases cw <;> cases wf <;> cases cr <;> cases rf <;>
    rcases intf with _ | _ | c <;>
    simp_all [run, pyPrint, pyInput, withOpen, openWrite, fileWrite,
      openRead, fileRead, closeFile, interfere, join_six]

/-- Witness for C5 at the concrete input Ship v2 with a benign filesystem. -/
theorem stdout_on_success_witness :
    String.join (run (benign "Ship v2") none).1.stdout =
      "--- 2026 CAREER LOCKER ---\n" ++
      "What is your ultimate goal for 2026? > " ++
      ("\n" ++ "...Saving to disk...\n") ++
      (strMul "-" 30 ++ "\n") ++
      ("✅ CONFIRMED. Saved Goal: " ++ "Ship v2" ++ "\n") ++
      (strMul "-" 30 ++ "\n") :=
  stdout_on_success (benign "Ship v2") none "Ship v2" rfl

/-- C2: whenever a run completes, the confirmation chunk printed to standard
output interpolates the value returned by reading my_goal.txt back (the
saved_content the run returns), not the in-memory input variable: this holds
for every environment, interference by another process included, in which
case the two differ. -/
theorem confirmation_prints_read_back (env : Env) (fileInit : FileContent)
    (s : String) (h : (run env fileInit).2 = Except.ok s) :
    (run env fileInit).1.stdout.getD 4 "" =
      "✅ CONFIRMED. Saved Goal: " ++ s ++ "\n" := by
  obtain ⟨stdin, cw, wf, cr, rf, intf⟩ := env
  cases stdin <;> cases cw <;> cases wf <;> cases cr <;> cases rf <;>
    rcases intf with _ | _ | c <;>
    simp_all [run, pyPrint, pyInput, withOpen, openWrite, fileWrite,
      openRead, fileRead, closeFile, interfere]

/-- Witness for C2: with another process replacing the file content by
TAMPERED between write and read, the run still completes and the
confirmation line shows the read-back value TAMPERED, not the input. -/
theorem confirmation_prints_read_back_witness :
    (run { stdin := some "Ship v2", canOpenWrite := true, writeFails := false,
           canOpenRead := true, readFails := false,
           interference := some (some "TAMPERED") } none).1.stdout.getD 4 "" =
      "✅ CONFIRMED. Saved Goal: TAMPERED\n" :=
  confirmation_prints_read_back _ none "TAMPERED" rfl

/-- C6: every modelled I/O failure (end-of-input before a line is provided,
failure to open for writing, a failing write, the file deleted by another
process between write and read, failure to open for reading, a failing read)
makes the run abort with an uncaught error, and the tail of the output
(in particular the confirmation line, chunk five of a complete run) is never
produced: no recovery, no retry. -/
theorem io_failures_abort (env : Env) (fileInit : FileContent)
    (h : env.stdin = none ∨ env.canOpenWrite = false ∨ env.writeFails = true ∨
         env.interference = some none ∨ env.canOpenRead = false ∨
         env.readFails = true) :
    (run env fileInit).2 = Except.error () ∧
    (run env fileInit).1.stdout.length ≤ 4 := by
  obtain ⟨stdin, cw, wf, cr, rf, intf⟩ := env
  cases stdin <;> cases cw <;> cases wf <;> cases cr <;> cases rf <;>
    rcases intf with _ | _ | c <;>
    simp_all [run, pyPrint, pyInput, withOpen, openWrite, fileWrite,
      openRead, fileRead, closeFile, interfere]

/-- Witness for C6: with standard input closed (EOF) the run aborts with an
error after printing only the header and the prompt. -/
theorem io_failures_abort_witness :
    (run { stdin := none, canOpenWrite := true, writeFails := false,
           canOpenRead := true, readFails := false, interference := none }
        none).2 = Except.error () ∧
    (run { stdin := none, canOpenWrite := true, writeFails := false,
           canOpenRead := true, readFails := false, interference := none }
        none).1.stdout.length ≤ 4 :=
  io_failures_abort _ none (Or.inl rfl)

/-- Witness for C10 at a concrete environment and input. -/
theorem run_deterministic_witness :
    (run (benign "Ship v2") none).1.stdout =
      (run (benign "Ship v2") none).1.stdout ∧
    (run (benign "Ship v2") none).1.file =
      (run (benign "Ship v2") none).1.file :=
  run_deterministic (benign "Ship v2") (benign "Ship v2") none none rfl rfl

end GoalRecorder
